import Mathlib

/-!
Verification of the fridge inventory core (validator, merge algorithm,
store gateway, orchestrator) of the `fridges` repository.

The embedding follows `src/fridge/update_fridge.py`, `src/fridge/fridge_utils.py`
and `src/db/dbconnect.py`.

Conventions of the embedding:
* Python numbers (int/float) are modelled as rationals `ℚ`; `round(x, 2)`
  is modelled by `round2` (rounding `x * 100` to the nearest integer).
* A Python value occurring in an item record is a `PyVal`: a number, a
  string, or `None`.  `float(v)` is modelled by `pyFloat`, with a parser
  for plain decimal literals (optional sign, digits, optional fraction,
  surrounding whitespace) standing in for Python `float` on strings.
* A fallible Python expression is modelled in `Except PyErr`.
* Python dicts are modelled as insertion-ordered association lists
  (`List (String × _)`); dict assignment replaces in place when the key
  is present and appends otherwise.
* `merge_items` starts from `current_fridge.copy()` — a shallow copy, so
  the inner item dicts are shared between the copy and the argument.  The
  embedding makes this aliasing explicit by threading a pair
  `(updated_fridge, current_fridge)` through the loop: an in-place
  mutation of a shared inner record is applied to both components.
* The store (`fridges` table) is a list of rows `uid ↦ Option Inventory`
  (`Option.none` column value = SQL NULL).  Connectivity failures of an
  operation (psycopg2 errors) are modelled by a boolean flag per call;
  a failed call leaves the table unchanged (the cursor context manager
  rolls back the transaction).
-/

/-- A Python value stored in an item record: a number (int/float modelled
as `ℚ`), a string, or `None`. -/
inductive PyVal : Type where
  | num (q : ℚ)
  | str (s : String)
  | nullv
  deriving DecidableEq, Repr

/-- An item record as persisted in an inventory: both fields always
present (as produced by `merge_items` and the JSON round-trip). -/
structure ItemRec : Type where
  quantity : PyVal
  unit_price : PyVal
  deriving DecidableEq, Repr

/-- A value of a batch entry: either a dict with optional `quantity` /
`unit_price` fields, or a non-dict value. -/
inductive PyItem : Type where
  | dict (quantity : Option PyVal) (unit_price : Option PyVal)
  | atom (v : PyVal)
  deriving DecidableEq, Repr

/-- An inventory: insertion-ordered mapping item name ↦ record. -/
abbrev Inventory : Type := List (String × ItemRec)

/-- A batch of scanned items, as passed to `validate_items` / `merge_items`. -/
abbrev Batch : Type := List (String × PyItem)

/-- The `items` argument of `update_fridge`: a dict-shaped batch or any
other value (rejected by `validate_items` as "must be a dictionary"). -/
inductive ItemsArg : Type where
  | items (b : Batch)
  | notDict (v : PyVal)
  deriving DecidableEq, Repr

/-- Python exceptions arising in the modelled fragment. -/
inductive PyErr : Type where
  | typeError
  | valueError
  | keyError
  | zeroDivisionError
  deriving DecidableEq, Repr

/-- Dict lookup on an association list (first matching key). -/
def lookupKey {α : Type} (l : List (String × α)) (k : String) : Option α :=
  match l with
  | [] => Option.none
  | (k1, v) :: rest => if k1 = k then some v else lookupKey rest k

/-- Dict update at an existing key (in-place value replacement, position
preserved); identity when the key is absent. -/
def replaceKey {α : Type} : List (String × α) → String → α → List (String × α)
  | [], _, _ => []
  | (k1, v1) :: rest, k, v =>
    if k1 = k then (k, v) :: replaceKey rest k v
    else (k1, v1) :: replaceKey rest k v

/-- Numeric value of a digit character. -/
def digitVal (c : Char) : ℕ := c.toNat - 48

/-- Value of a digit string. -/
def natOfDigits (l : List Char) : ℕ :=
  l.foldl (fun acc c => 10 * acc + digitVal c) 0

/-- Python `str.strip()` on the character list of a string. -/
def stripChars (l : List Char) : List Char :=
  ((l.dropWhile Char.isWhitespace).reverse.dropWhile Char.isWhitespace).reverse

/-- Python `not name.strip()`: the name is empty or whitespace-only. -/
def pyStripBlank (n : String) : Bool := (stripChars n.toList).isEmpty

/-- Parse a plain decimal literal (optional sign, digits, optional
fractional part, surrounding whitespace), modelling Python `float` on
strings.  Returns `Option.none` where Python raises `ValueError`. -/
def parseFloat (s : String) : Option ℚ :=
  let t := stripChars s.toList
  let sign : ℚ := if t.head? = some '-' then -1 else 1
  let t1 : List Char :=
    if t.head? = some '-' ∨ t.head? = some '+' then t.tail else t
  let ip := t1.takeWhile Char.isDigit
  let r1 := t1.dropWhile Char.isDigit
  if r1 = [] then
    if ip = [] then Option.none else some (sign * (natOfDigits ip : ℚ))
  else
    if r1.head? = some '.' ∧ (r1.tail.dropWhile Char.isDigit) = [] ∧
        ¬(ip = [] ∧ r1.tail.takeWhile Char.isDigit = []) then
      some (sign * ((natOfDigits ip : ℚ) +
        (natOfDigits (r1.tail.takeWhile Char.isDigit) : ℚ) /
          (10 : ℚ) ^ (r1.tail.takeWhile Char.isDigit).length))
    else Option.none

/-- Python `float(v)`: numbers pass through, numeric strings are parsed
(`ValueError` otherwise), other values raise `TypeError`. -/
def pyFloat : PyVal → Except PyErr ℚ
  | PyVal.num q => Except.ok q
  | PyVal.str s =>
    match parseFloat s with
    | some q => Except.ok q
    | Option.none => Except.error PyErr.valueError
  | PyVal.nullv => Except.error PyErr.typeError

/-- Python `a + b` on item-field values: number addition, string
concatenation, `TypeError` on mixed operands. -/
def pyAdd : PyVal → PyVal → Except PyErr PyVal
  | PyVal.num a, PyVal.num b => Except.ok (PyVal.num (a + b))
  | PyVal.str a, PyVal.str b => Except.ok (PyVal.str (a ++ b))
  | _, _ => Except.error PyErr.typeError

/-- Python `a * b` on item-field values, restricted to numbers (every
non-numeric operand combination reachable here ends in an exception
before the merge can succeed). -/
def pyMul : PyVal → PyVal → Except PyErr ℚ
  | PyVal.num a, PyVal.num b => Except.ok (a * b)
  | _, _ => Except.error PyErr.typeError

/-- Python `x / d` for a number `x` and an item-field value `d`. -/
def pyDivVal (x : ℚ) : PyVal → Except PyErr ℚ
  | PyVal.num d =>
    if d = 0 then Except.error PyErr.zeroDivisionError else Except.ok (x / d)
  | _ => Except.error PyErr.typeError

/-- Python `round(x, 2)` on a number. -/
def round2 (x : ℚ) : ℚ := ((round (x * 100) : ℤ) : ℚ) / 100

/-- `item_data["quantity"]`: `KeyError` when the field is missing,
`TypeError` when the entry is not a dict. -/
def itemQuantity : PyItem → Except PyErr PyVal
  | PyItem.dict (some v) _ => Except.ok v
  | PyItem.dict Option.none _ => Except.error PyErr.keyError
  | PyItem.atom _ => Except.error PyErr.typeError

/-- `item_data["unit_price"]`: `KeyError` when the field is missing,
`TypeError` when the entry is not a dict. -/
def itemPrice : PyItem → Except PyErr PyVal
  | PyItem.dict _ (some v) => Except.ok v
  | PyItem.dict _ Option.none => Except.error PyErr.keyError
  | PyItem.atom _ => Except.error PyErr.typeError

/-- `FridgeUpdater.calculate_weighted_average_price` (update_fridge.py,
lines 72–92), evaluated in source order: read the new fields, form
`total_qty`, the two products, their sum, divide, round to 2 places. -/
def calculate_weighted_average_price (existing : ItemRec) (new_item : PyItem) :
    Except PyErr ℚ :=
  match itemQuantity new_item with
  | Except.error e => Except.error e
  | Except.ok new_qty =>
    match itemPrice new_item with
    | Except.error e => Except.error e
    | Except.ok new_price =>
      match pyAdd existing.quantity new_qty with
      | Except.error e => Except.error e
      | Except.ok total_qty =>
        match pyMul existing.quantity existing.unit_price with
        | Except.error e => Except.error e
        | Except.ok v1 =>
          match pyMul new_qty new_price with
          | Except.error e => Except.error e
          | Except.ok v2 =>
            match pyDivVal (v1 + v2) total_qty with
            | Except.error e => Except.error e
            | Except.ok r => Except.ok (round2 r)

/-- One iteration of the `merge_items` loop (update_fridge.py, lines
107–121).  State is `(updated_fridge, current_fridge)`; for a name
already present the inner record is the one shared with `current_fridge`
(shallow copy), so its in-place mutation is applied to both components;
a new name is appended to `updated_fridge` only. -/
def mergeStep (st : Inventory × Inventory) (entry : String × PyItem) :
    Except PyErr (Inventory × Inventory) :=
  match lookupKey st.1 entry.1 with
  | some existing =>
    match itemQuantity entry.2 with
    | Except.error e => Except.error e
    | Except.ok q_new =>
      match pyAdd existing.quantity q_new with
      | Except.error e => Except.error e
      | Except.ok newQ =>
        match calculate_weighted_average_price ⟨newQ, existing.unit_price⟩
            entry.2 with
        | Except.error e => Except.error e
        | Except.ok p =>
          Except.ok (replaceKey st.1 entry.1 ⟨newQ, PyVal.num p⟩,
            replaceKey st.2 entry.1 ⟨newQ, PyVal.num p⟩)
  | Option.none =>
    match itemQuantity entry.2 with
    | Except.error e => Except.error e
    | Except.ok qv =>
      match itemPrice entry.2 with
      | Except.error e => Except.error e
      | Except.ok pv =>
        match pyFloat pv with
        | Except.error e => Except.error e
        | Except.ok pf =>
          Except.ok (st.1 ++ [(entry.1, ⟨qv, PyVal.num (round2 pf)⟩)], st.2)

/-- The `for` loop of `merge_items` over the batch entries in input
(insertion) order. -/
def mergeLoop (st : Inventory × Inventory) : Batch →
    Except PyErr (Inventory × Inventory)
  | [] => Except.ok st
  | e :: rest =>
    match mergeStep st e with
    | Except.error er => Except.error er
    | Except.ok st2 => mergeLoop st2 rest

/-- `FridgeUpdater.merge_items` (update_fridge.py, lines 94–123).
Returns `(updated_fridge, current_fridge)` — the second component is the
state of the *argument* after the call, recording the mutations that the
shallow `current_fridge.copy()` lets leak into it. -/
def merge_items (current_fridge : Inventory) (new_items : Batch) :
    Except PyErr (Inventory × Inventory) :=
  mergeLoop (current_fridge, current_fridge) new_items

/-- Validation failures of `validate_items`, one constructor per distinct
`FridgeUpdateError` message in the source. -/
inductive ValErr : Type where
  | notADict
  | emptyBatch
  | invalidName (n : String)
  | itemNotDict (n : String)
  | missingKeys (n : String)
  | nonNumeric (n : String)
  | nonPositiveQuantity (n : String)
  | negativePrice (n : String)
  deriving DecidableEq, Repr

/-- The checks the `validate_items` loop body applies to one entry, in
source order (update_fridge.py, lines 48–70): name non-blank, data is a
dict, both required keys present, both values convert with `float`,
quantity positive, price non-negative. -/
def checkEntry (name : String) (item : PyItem) : Option ValErr :=
  if pyStripBlank name then some (ValErr.invalidName name)
  else
    match item with
    | PyItem.atom _ => some (ValErr.itemNotDict name)
    | PyItem.dict qf pf =>
      match qf, pf with
      | some qv, some pv =>
        match pyFloat qv with
        | Except.error _ => some (ValErr.nonNumeric name)
        | Except.ok q =>
          match pyFloat pv with
          | Except.error _ => some (ValErr.nonNumeric name)
          | Except.ok p =>
            if q ≤ 0 then some (ValErr.nonPositiveQuantity name)
            else if p < 0 then some (ValErr.negativePrice name)
            else Option.none
      | _, _ => some (ValErr.missingKeys name)

/-- The `for` loop of `validate_items`: first failing entry in input
order, single pass. -/
def firstCheck : Batch → Option ValErr
  | [] => Option.none
  | (n, it) :: rest =>
    match checkEntry n it with
    | some e => some e
    | Option.none => firstCheck rest

/-- `FridgeUpdater.validate_items` (update_fridge.py, lines 31–70):
`Option.none` = batch accepted, `some e` = the raised
`FridgeUpdateError`. -/
def validate_items : ItemsArg → Option ValErr
  | ItemsArg.notDict _ => some ValErr.notADict
  | ItemsArg.items b =>
    if b = [] then some ValErr.emptyBatch else firstCheck b

/-- Message text of each `FridgeUpdateError` raised by `validate_items`. -/
def errText : ValErr → String
  | ValErr.notADict => "Items must be a dictionary"
  | ValErr.emptyBatch => "Items dictionary cannot be empty"
  | ValErr.invalidName n => "Invalid item name: " ++ n
  | ValErr.itemNotDict n => "Item data for " ++ n ++ " must be a dictionary"
  | ValErr.missingKeys n => "Item " ++ n ++ " missing required keys"
  | ValErr.nonNumeric n => "Invalid numeric values for item " ++ n
  | ValErr.nonPositiveQuantity n => "Quantity for " ++ n ++ " must be positive"
  | ValErr.negativePrice n => "Unit price for " ++ n ++ " cannot be negative"

/-- The `fridges` table: one row per uid, column `fridge` is a JSON
inventory or SQL NULL (`Option.none`). -/
abbrev DbState : Type := List (String × Option Inventory)

/-- `FridgeManager.get_fridge_by_id` (fridge_utils.py, lines 26–65).
`ok = false` models a psycopg2/connectivity error during the call: the
exception handler returns `None`, the same value as for a missing row.
With `ok = true`: no row → `None`, NULL column → `{}`, else the stored
mapping. -/
def get_fridge_by_id (ok : Bool) (db : DbState) (uid : String) :
    Option Inventory :=
  if ok then
    match lookupKey db uid with
    | Option.none => Option.none
    | some Option.none => some []
    | some (some inv) => some inv
  else Option.none

/-- `FridgeManager.create_empty_fridge` (fridge_utils.py, lines 67–94):
`INSERT ... ON CONFLICT (uid) DO NOTHING` of an empty inventory; reports
`false` and leaves the table unchanged (rollback) on a database error. -/
def create_empty_fridge (ok : Bool) (db : DbState) (uid : String) :
    Bool × DbState :=
  if ok then
    if (lookupKey db uid).isSome then (true, db)
    else (true, db ++ [(uid, some ([] : Inventory))])
  else (false, db)

/-- `FridgeManager.update_fridge_contents` (fridge_utils.py, lines
96–124): a single `UPDATE fridges SET fridge = ... WHERE uid = ...`
inside one transaction.  On a database error the transaction rolls back
(table unchanged) and `false` is reported; otherwise `true` is reported
even when no row matched the uid. -/
def update_fridge_contents (ok : Bool) (db : DbState) (uid : String)
    (fridge_data : Inventory) : Bool × DbState :=
  if ok then (true, replaceKey db uid (some fridge_data))
  else (false, db)

/-- Per-call connectivity outcomes of the three store operations used by
one `update_fridge` call. -/
structure StoreFlags : Type where
  fetchOk : Bool
  createOk : Bool
  writeOk : Bool
  deriving DecidableEq, Repr

/-- The batch carried by a dict-shaped `items` argument. -/
def batchOf : ItemsArg → Batch
  | ItemsArg.items b => b
  | ItemsArg.notDict _ => []

/-- Merge-and-persist tail of `FridgeUpdater.update_fridge`
(update_fridge.py, lines 154–162): merge, then write; a merge exception
is caught by the outer handler (result `false`, no write). -/
def mergeAndStore (fl : StoreFlags) (db : DbState) (uid : String)
    (cur : Inventory) (batch : Batch) : (Bool × String) × DbState :=
  match merge_items cur batch with
  | Except.error _ => ((false, "Unexpected error"), db)
  | Except.ok (updated, _) =>
    match update_fridge_contents fl.writeOk db uid updated with
    | (true, db2) =>
      ((true, "Successfully added " ++ toString batch.length ++
        " items to fridge " ++ uid), db2)
    | (false, db2) => ((false, "Failed to update fridge in database"), db2)

/-- `FridgeUpdater.update_fridge` (update_fridge.py, lines 125–169):
validate, fetch, create-if-absent, merge, replace; every failure is
caught and reported as `(false, message)`. -/
def update_fridge (fl : StoreFlags) (db : DbState) (uid : String)
    (items : ItemsArg) : (Bool × String) × DbState :=
  match validate_items items with
  | some e => ((false, "Validation error: " ++ errText e), db)
  | Option.none =>
    match get_fridge_by_id fl.fetchOk db uid with
    | some cur => mergeAndStore fl db uid cur (batchOf items)
    | Option.none =>
      match create_empty_fridge fl.createOk db uid with
      | (true, db1) => mergeAndStore fl db1 uid [] (batchOf items)
      | (false, db1) => ((false, "Failed to create new fridge for user"), db1)

/-- Whether a value is a (positive) number: used to state the inventory
invariant of the spec. -/
def posNum : PyVal → Bool
  | PyVal.num q => decide (0 < q)
  | _ => false

/-- Whether a value is a non-negative number. -/
def nonnegNum : PyVal → Bool
  | PyVal.num q => decide (0 ≤ q)
  | _ => false

/-- Whether a value is a number at all. -/
def isNumVal : PyVal → Bool
  | PyVal.num _ => true
  | _ => false

/-- The spec's inventory invariant: every entry has numeric quantity > 0
and numeric unit_price ≥ 0. -/
def goodInv (inv : Inventory) : Prop :=
  ∀ x ∈ inv, posNum (Prod.snd x).quantity = true ∧
    nonnegNum (Prod.snd x).unit_price = true

instance : DecidablePred goodInv := fun inv =>
  List.decidableBAll _ inv

/-! ### Concrete fixtures used by several claims -/

/-- The spec's milk example: current inventory `{"milk": {quantity: 2,
unit_price: 3.00}}`. -/
def milkCur : Inventory := [("milk", ⟨PyVal.num 2, PyVal.num 3⟩)]

/-- The spec's milk example batch: `{"milk": {quantity: 2, unit_price:
5.00}}`. -/
def milkBatch : Batch :=
  [("milk", PyItem.dict (some (PyVal.num 2)) (some (PyVal.num 5)))]

/-- The record produced by the source's merge for the milk example:
quantity 4 but unit price 3.67, because the quantity is updated in place
before the average is computed. -/
def milkMergedRec : ItemRec := ⟨PyVal.num 4, PyVal.num (367 / 100)⟩

/-- A store holding one row, uid "1" with the milk inventory. -/
def dbWithRecord : DbState := [("1", some milkCur)]


/-- A validated batch whose quantity is the numeric string "2". -/
def strBatch : Batch :=
  [("milk", PyItem.dict (some (PyVal.str "2")) (some (PyVal.num 1)))]

/-- Batch A of the concurrency scenario: one item "alpha". -/
def batchA : Batch :=
  [("alpha", PyItem.dict (some (PyVal.num 1)) (some (PyVal.num 2)))]

/-- Batch B of the concurrency scenario: one item "beta". -/
def batchB : Batch :=
  [("beta", PyItem.dict (some (PyVal.num 3)) (some (PyVal.num 4)))]

/-- Inventory resulting from merging batch A into an empty inventory. -/
def invA : Inventory := [("alpha", ⟨PyVal.num 1, PyVal.num 2⟩)]

/-- Inventory resulting from merging batch B into an empty inventory. -/
def invB : Inventory := [("beta", ⟨PyVal.num 3, PyVal.num 4⟩)]

/-- A store holding one row, uid "1" with an empty inventory. -/
def emptyDb1 : DbState := [("1", some ([] : Inventory))]


/-! ### General lemmas about the embedded dictionary operations -/

theorem lookupKey_mem {α : Type} {l : List (String × α)} {k : String} {v : α}
    (h : lookupKey l k = some v) : (k, v) ∈ l := by
  induction l with
  | nil => simp [lookupKey] at h
  | cons hd tl ih =>
    obtain ⟨k1, v1⟩ := hd
    by_cases hk : k1 = k
    · subst hk
      simp [lookupKey] at h
      subst h
      exact List.mem_cons_self _ _
    · simp [lookupKey, hk] at h
      exact List.mem_cons_of_mem _ (ih h)

theorem lookupKey_replaceKey_self {α : Type} {l : List (String × α)}
    {k : String} {v0 : α} (h : lookupKey l k = some v0) (v : α) :
    lookupKey (replaceKey l k v) k = some v := by
  induction l with
  | nil => simp [lookupKey] at h
  | cons hd tl ih =>
    obtain ⟨k1, v1⟩ := hd
    by_cases hk : k1 = k
    · subst hk
      simp [lookupKey, replaceKey]
    · simp only [lookupKey, if_neg hk] at h
      simp only [replaceKey, if_neg hk, lookupKey]
      exact ih h

theorem lookupKey_append_right {α : Type} {l : List (String × α)}
    {k : String} (h : lookupKey l k = Option.none) (v : α) :
    lookupKey (l ++ [(k, v)]) k = some v := by
  induction l with
  | nil => simp [lookupKey]
  | cons hd tl ih =>
    obtain ⟨k1, v1⟩ := hd
    by_cases hk : k1 = k
    · simp [lookupKey, hk] at h
    · simp [lookupKey, hk] at h ⊢
      exact ih h

/-! ### Lemmas about the validator -/

theorem firstCheck_none_iff {b : Batch} :
    firstCheck b = Option.none ↔ ∀ x ∈ b, checkEntry x.1 x.2 = Option.none := by
  induction b with
  | nil => simp [firstCheck]
  | cons hd tl ih =>
    obtain ⟨n, it⟩ := hd
    cases h : checkEntry n it with
    | none => simp [firstCheck, h, ih]
    | some e => simp [firstCheck, h]

theorem firstCheck_eq_some {b : Batch} {e : ValErr}
    (h : firstCheck b = some e) :
    ∃ pre n it post, b = pre ++ (n, it) :: post ∧
      (∀ x ∈ pre, checkEntry x.1 x.2 = Option.none) ∧
      checkEntry n it = some e := by
  induction b with
  | nil => simp [firstCheck] at h
  | cons hd tl ih =>
    obtain ⟨n, it⟩ := hd
    cases hc : checkEntry n it with
    | some e1 =>
      simp [firstCheck, hc] at h
      exact ⟨[], n, it, tl, by simp, by simp, by rw [hc, h]⟩
    | none =>
      simp [firstCheck, hc] at h
      obtain ⟨pre, n1, it1, post, hb, hpre, hat⟩ := ih h
      refine ⟨(n, it) :: pre, n1, it1, post, by simp [hb], ?_, hat⟩
      intro x hx
      rcases List.mem_cons.mp hx with h1 | h1
      · subst h1; exact hc
      · exact hpre x h1

theorem validate_ok_entries {b : Batch}
    (h : validate_items (ItemsArg.items b) = Option.none) :
    ∀ x ∈ b, checkEntry x.1 x.2 = Option.none := by
  cases b with
  | nil => simp
  | cons hd tl =>
    simp only [validate_items, if_neg (by simp : ¬(hd :: tl = []))] at h
    exact firstCheck_none_iff.mp h

theorem checkEntry_none_of_valid {n : String} {qv pv : PyVal} {q p : ℚ}
    (hn : pyStripBlank n = false) (hq : pyFloat qv = Except.ok q)
    (hp : pyFloat pv = Except.ok p) (hqpos : 0 < q) (hpnn : 0 ≤ p) :
    checkEntry n (PyItem.dict (some qv) (some pv)) = Option.none := by
  simp only [checkEntry, hn, hq, hp]
  simp [not_le.mpr hqpos, not_lt.mpr hpnn]

theorem checkEntry_num_facts {n : String} {q p : ℚ}
    (h : checkEntry n (PyItem.dict (some (PyVal.num q)) (some (PyVal.num p))) =
      Option.none) : 0 < q ∧ 0 ≤ p := by
  cases hn : pyStripBlank n with
  | true => simp [checkEntry, hn] at h
  | false =>
    by_cases hq : q ≤ 0
    · simp [checkEntry, hn, pyFloat, hq] at h
    · by_cases hp : p < 0
      · simp [checkEntry, hn, pyFloat, hq, hp] at h
      · exact ⟨not_le.mp hq, not_lt.mp hp⟩

/-! ### Lemmas about rounding and the inventory invariant -/

theorem round2_nonneg {x : ℚ} (h : 0 ≤ x) : 0 ≤ round2 x := by
  unfold round2
  have h1 : (0 : ℤ) ≤ round (x * 100) := by
    rw [round_eq]
    exact Int.le_floor.mpr (by linarith)
  positivity

theorem posNum_num {q : ℚ} : posNum (PyVal.num q) = true ↔ 0 < q := by
  simp [posNum]

theorem nonnegNum_num {q : ℚ} : nonnegNum (PyVal.num q) = true ↔ 0 ≤ q := by
  simp [nonnegNum]

theorem goodInv_replaceKey {l : Inventory} {k : String} {r : ItemRec}
    (hl : goodInv l) (hq : posNum r.quantity = true)
    (hp : nonnegNum r.unit_price = true) : goodInv (replaceKey l k r) := by
  induction l with
  | nil => intro x hx; simp [replaceKey] at hx
  | cons hd tl ih =>
    obtain ⟨k1, v1⟩ := hd
    have htl : goodInv tl := fun x hx => hl x (List.mem_cons_of_mem _ hx)
    by_cases hk : k1 = k
    · intro x hx
      simp only [replaceKey, if_pos hk] at hx
      rcases List.mem_cons.mp hx with h1 | h1
      · subst h1; exact ⟨hq, hp⟩
      · exact ih htl x h1
    · intro x hx
      simp only [replaceKey, if_neg hk] at hx
      rcases List.mem_cons.mp hx with h1 | h1
      · subst h1; exact hl _ (List.mem_cons_self _ _)
      · exact ih htl x h1

theorem goodInv_append_single {l : Inventory} {k : String} {r : ItemRec}
    (hl : goodInv l) (hq : posNum r.quantity = true)
    (hp : nonnegNum r.unit_price = true) : goodInv (l ++ [(k, r)]) := by
  intro x hx
  rcases List.mem_append.mp hx with h1 | h1
  · exact hl x h1
  · simp at h1
    subst h1
    exact ⟨hq, hp⟩

/-! ### The merge loop preserves the inventory invariant (numeric batches) -/

theorem mergeStep_good {st : Inventory × Inventory} {n : String} {q p : ℚ}
    (hst : goodInv st.1) (hq : 0 < q) (hp : 0 ≤ p) :
    ∃ st2, mergeStep st
      (n, PyItem.dict (some (PyVal.num q)) (some (PyVal.num p))) =
        Except.ok st2 ∧ goodInv st2.1 := by
  cases hl : lookupKey st.1 n with
  | none =>
    refine ⟨(st.1 ++ [(n, ⟨PyVal.num q, PyVal.num (round2 p)⟩)], st.2), ?_, ?_⟩
    · simp [mergeStep, hl, itemQuantity, itemPrice, pyFloat]
    · exact goodInv_append_single hst (posNum_num.mpr hq)
        (nonnegNum_num.mpr (round2_nonneg hp))
  | some ex =>
    obtain ⟨hexq, hexp⟩ := hst _ (lookupKey_mem hl)
    cases hq1 : ex.quantity with
    | str s => rw [hq1] at hexq; simp [posNum] at hexq
    | nullv => rw [hq1] at hexq; simp [posNum] at hexq
    | num eq =>
      cases hp1 : ex.unit_price with
      | str s => rw [hp1] at hexp; simp [nonnegNum] at hexp
      | nullv => rw [hp1] at hexp; simp [nonnegNum] at hexp
      | num ep =>
        have heq : 0 < eq := posNum_num.mp (hq1 ▸ hexq)
        have hep : 0 ≤ ep := nonnegNum_num.mp (hp1 ▸ hexp)
        have hne : eq + q + q ≠ 0 := by positivity
        have hres : mergeStep st
            (n, PyItem.dict (some (PyVal.num q)) (some (PyVal.num p))) =
            Except.ok
              (replaceKey st.1 n ⟨PyVal.num (eq + q),
                PyVal.num (round2 (((eq + q) * ep + q * p) / (eq + q + q)))⟩,
               replaceKey st.2 n ⟨PyVal.num (eq + q),
                PyVal.num (round2 (((eq + q) * ep + q * p) / (eq + q + q)))⟩) := by
          simp [mergeStep, hl, itemQuantity, itemPrice, hq1, hp1, pyAdd,
            calculate_weighted_average_price, pyMul, pyDivVal, hne]
        refine ⟨_, hres, goodInv_replaceKey hst ?_ ?_⟩
        · exact posNum_num.mpr (by positivity)
        · refine nonnegNum_num.mpr (round2_nonneg (div_nonneg ?_ ?_))
          · positivity
          · positivity

theorem mergeLoop_good : ∀ (b : Batch) (st : Inventory × Inventory),
    goodInv st.1 →
    (∀ x ∈ b, ∃ q p,
      x.2 = PyItem.dict (some (PyVal.num q)) (some (PyVal.num p)) ∧
        0 < q ∧ 0 ≤ p) →
    ∃ st2, mergeLoop st b = Except.ok st2 ∧ goodInv st2.1 := by
  intro b
  induction b with
  | nil => intro st hst _; exact ⟨st, rfl, hst⟩
  | cons hd tl ih =>
    intro st hst hb
    obtain ⟨q, p, hshape, hq, hp⟩ := hb hd (List.mem_cons_self _ _)
    obtain ⟨n, it⟩ := hd
    simp only at hshape
    subst hshape
    obtain ⟨st2, hstep, hst2⟩ := @mergeStep_good st n q p hst hq hp
    obtain ⟨st3, hloop, hst3⟩ :=
      ih st2 hst2 (fun x hx => hb x (List.mem_cons_of_mem _ hx))
    exact ⟨st3, by simp [mergeLoop, hstep, hloop], hst3⟩

/-- C1: the claim says merging `{"milk": {2, 3.00}}` with `{"milk": {2,
5.00}}` yields unit price `round2((2*3+2*5)/(2+2)) = 4.00`.  The code
first executes `updated_fridge["milk"]["quantity"] += 2` and only then
calls `calculate_weighted_average_price` on the already-updated record,
so the "existing" quantity is 4: the price stored is
`round2((4*3+2*5)/(4+2)) = 3.67 ≠ 4.00`.  This theorem evaluates the
embedded `merge_items` at the claim's own example and separates the two
values. -/
theorem C1_merge_price_not_weighted_average :
    merge_items milkCur milkBatch =
      Except.ok ([("milk", milkMergedRec)], [("milk", milkMergedRec)]) ∧
    round2 ((2 * 3 + 2 * 5) / (2 + 2)) = 4 ∧
    (367 : ℚ) / 100 ≠ 4 := by
  refine ⟨?_, ?_, by norm_num⟩
  · norm_num [merge_items, mergeLoop, mergeStep, milkCur, milkBatch,
      milkMergedRec, calculate_weighted_average_price, itemQuantity,
      itemPrice, pyAdd, pyMul, pyDivVal, lookupKey, replaceKey, round2,
      round_eq]
  · norm_num [round2, round_eq]

/-- C2: the claim says `merge_items` leaves its `current` argument
unchanged, including entries shared with the batch.  The source copies
the outer dict shallowly (`current_fridge.copy()`), so the inner "milk"
record is shared and its in-place update leaks into the argument: after
the call the argument maps "milk" to quantity 4 / price 3.67, not its
original value.  The second component of the embedded `merge_items` is
the argument's post-call state. -/
theorem C2_merge_mutates_current :
    Except.map Prod.snd (merge_items milkCur milkBatch) =
      Except.ok [("milk", milkMergedRec)] ∧
    [("milk", milkMergedRec)] ≠ milkCur := by
  constructor
  · norm_num [merge_items, mergeLoop, mergeStep, milkCur, milkBatch,
      milkMergedRec, calculate_weighted_average_price, itemQuantity,
      itemPrice, pyAdd, pyMul, pyDivVal, lookupKey, replaceKey, round2,
      round_eq, Except.map]
  · norm_num [milkCur, milkMergedRec]

/-- C3 counterexample: the claim says a connectivity/database error is
reported as a distinct `StoreUnavailable` error, distinguishable from
the no-record case.  In the source the `except psycopg2.Error` handler
returns `None` — the very value returned when no record exists: with a
record stored for uid "1", a failing call returns `Option.none`, equal
to the result of a successful call on an empty store. -/
theorem C3_db_error_indistinguishable_from_no_record :
    get_fridge_by_id false dbWithRecord "1" = Option.none ∧
    get_fridge_by_id true ([] : DbState) "1" = Option.none := by
  exact ⟨rfl, rfl⟩

/-- C3 amended: `get_fridge_by_id` returns `None` when no record exists,
the empty map when the record's fridge column is NULL, the stored map
otherwise — and returns `None` (not a distinct error) on a database
error as well. -/
theorem C3_fetch_cases (db : DbState) (uid : String) :
    (get_fridge_by_id false db uid = Option.none) ∧
    (lookupKey db uid = Option.none →
      get_fridge_by_id true db uid = Option.none) ∧
    (lookupKey db uid = some Option.none →
      get_fridge_by_id true db uid = some []) ∧
    (∀ inv, lookupKey db uid = some (some inv) →
      get_fridge_by_id true db uid = some inv) := by
  refine ⟨rfl, ?_, ?_, ?_⟩
  · intro h; simp [get_fridge_by_id, h]
  · intro h; simp [get_fridge_by_id, h]
  · intro inv h; simp [get_fridge_by_id, h]

/-- Witness for C3_fetch_cases at a concrete store. -/
theorem C3_fetch_cases_witness :
    get_fridge_by_id true dbWithRecord "1" = some milkCur :=
  (C3_fetch_cases dbWithRecord "1").2.2.2 milkCur (by decide)

/-- C4 counterexample: the claim says that after a successful
`update_fridge_contents(uid, inventory)` a fetch returns that inventory.
The source issues a bare `UPDATE ... WHERE uid = %s` and returns `True`
even when no row matches, so on a store with no record for uid "1" the
call reports success while a subsequent fetch still returns `None`. -/
theorem C4_replace_succeeds_without_row :
    (update_fridge_contents true ([] : DbState) "1" milkCur).1 = true ∧
    get_fridge_by_id true
      (update_fridge_contents true ([] : DbState) "1" milkCur).2 "1" ≠
        some milkCur := by
  constructor
  · rfl
  · simp [update_fridge_contents, replaceKey, get_fridge_by_id, lookupKey]

/-- C4 amended: when a record for uid exists, a successful replace
followed by a fetch returns the written inventory; whenever replace
fails, it reports failure and the stored state is unchanged
(all-or-nothing); when no record exists, replace reports success but
stores nothing. -/
theorem C4_replace_ok_and_atomic (db : DbState) (uid : String)
    (inv : Inventory) :
    (update_fridge_contents false db uid inv = (false, db)) ∧
    ((lookupKey db uid).isSome = true →
      get_fridge_by_id true (update_fridge_contents true db uid inv).2 uid =
        some inv) := by
  refine ⟨rfl, ?_⟩
  intro h
  obtain ⟨v0, hv0⟩ := Option.isSome_iff_exists.mp h
  have h1 : lookupKey (replaceKey db uid (some inv)) uid = some (some inv) :=
    lookupKey_replaceKey_self hv0 (some inv)
  simp [update_fridge_contents, get_fridge_by_id, h1]

/-- Witness for C4_replace_ok_and_atomic at a concrete store. -/
theorem C4_replace_ok_and_atomic_witness :
    get_fridge_by_id true
      (update_fridge_contents true dbWithRecord "1" milkCur).2 "1" =
      some milkCur :=
  (C4_replace_ok_and_atomic dbWithRecord "1" milkCur).2 (by decide)

/-- C5: behaviour of `validate_items`: an empty batch is rejected as
EmptyBatch; a non-empty batch whose entries all have a non-blank name,
both fields, float-convertible values, positive quantity and
non-negative price is accepted; a batch containing any offending entry
is rejected; the reported error is that of the first offending entry in
input order (single pass); an otherwise-well-formed entry with quantity
≤ 0 yields NonPositiveQuantity and one with quantity > 0 and price < 0
yields NegativePrice. -/
theorem C5_validate_items_behaviour :
    (validate_items (ItemsArg.items ([] : Batch)) = some ValErr.emptyBatch) ∧
    (∀ b : Batch, b ≠ [] →
      (∀ n it, (n, it) ∈ b → pyStripBlank n = false ∧
        ∃ qv pv q p, it = PyItem.dict (some qv) (some pv) ∧
          pyFloat qv = Except.ok q ∧ pyFloat pv = Except.ok p ∧
          0 < q ∧ 0 ≤ p) →
      validate_items (ItemsArg.items b) = Option.none) ∧
    (∀ (b : Batch) (n : String) (it : PyItem), (n, it) ∈ b →
      checkEntry n it ≠ Option.none →
      validate_items (ItemsArg.items b) ≠ Option.none) ∧
    (∀ (b : Batch) (e : ValErr), validate_items (ItemsArg.items b) = some e →
      b ≠ [] →
      ∃ pre n it post, b = pre ++ (n, it) :: post ∧
        (∀ x ∈ pre, checkEntry x.1 x.2 = Option.none) ∧
        checkEntry n it = some e) ∧
    (∀ (n : String) (qv pv : PyVal) (q p : ℚ), pyStripBlank n = false →
      pyFloat qv = Except.ok q → pyFloat pv = Except.ok p → q ≤ 0 →
      checkEntry n (PyItem.dict (some qv) (some pv)) =
        some (ValErr.nonPositiveQuantity n)) ∧
    (∀ (n : String) (qv pv : PyVal) (q p : ℚ), pyStripBlank n = false →
      pyFloat qv = Except.ok q → pyFloat pv = Except.ok p → 0 < q → p < 0 →
      checkEntry n (PyItem.dict (some qv) (some pv)) =
        some (ValErr.negativePrice n)) := by
  refine ⟨rfl, ?_, ?_, ?_, ?_, ?_⟩
  · intro b hb h
    simp only [validate_items, if_neg hb]
    refine firstCheck_none_iff.mpr ?_
    intro x hx
    obtain ⟨hn, qv, pv, q, p, hshape, hq, hp, hqpos, hpnn⟩ :=
      h x.1 x.2 (by simpa using hx)
    rw [hshape]
    exact checkEntry_none_of_valid hn hq hp hqpos hpnn
  · intro b n it hmem hbad hval
    exact hbad (validate_ok_entries hval (n, it) hmem)
  · intro b e hval hb
    simp only [validate_items, if_neg hb] at hval
    exact firstCheck_eq_some hval
  · intro n qv pv q p hn hq hp hqle
    simp [checkEntry, hn, hq, hp, hqle]
  · intro n qv pv q p hn hq hp hq0 hplt
    simp [checkEntry, hn, hq, hp, not_le.mpr hq0, hplt]

/-- Witness for C5_validate_items_behaviour: the acceptance clause at a
concrete well-formed batch. -/
theorem C5_validate_items_behaviour_witness :
    validate_items (ItemsArg.items
      [("milk", PyItem.dict (some (PyVal.num 2)) (some (PyVal.num 3)))]) =
      Option.none := by
  refine C5_validate_items_behaviour.2.1 _ (by simp) ?_
  intro n it h
  simp only [List.mem_singleton, Prod.mk.injEq] at h
  obtain ⟨hn, hit⟩ := h
  subst hn
  subst hit
  exact ⟨by decide, PyVal.num 2, PyVal.num 3, 2, 3, rfl, rfl, rfl,
    by norm_num, by norm_num⟩

/-- C6: a batch that fails validation makes `update_fridge` return the
validation failure with the store left untouched; the result does not
depend on the store flags at all — the raised `FridgeUpdateError` is
caught before any store operation runs. -/
theorem C6_validation_short_circuits (fl : StoreFlags) (db : DbState)
    (uid : String) (items : ItemsArg) (e : ValErr)
    (h : validate_items items = some e) :
    update_fridge fl db uid items =
      ((false, "Validation error: " ++ errText e), db) := by
  simp [update_fridge, h]

/-- Witness for C6_validation_short_circuits: the empty batch on a
populated store. -/
theorem C6_validation_short_circuits_witness :
    update_fridge ⟨true, true, true⟩ dbWithRecord "1"
      (ItemsArg.items ([] : Batch)) =
      ((false, "Validation error: " ++ errText ValErr.emptyBatch),
        dbWithRecord) :=
  C6_validation_short_circuits ⟨true, true, true⟩ dbWithRecord "1"
    (ItemsArg.items ([] : Batch)) ValErr.emptyBatch rfl

/-! ### Evaluation of the float parser at the literal "2" -/

theorem parseFloat_two : parseFloat "2" = some 2 := by
  have h1 : stripChars ['2'] = ['2'] := by decide
  have h2 : List.takeWhile Char.isDigit ['2'] = ['2'] := by decide
  have h3 : List.dropWhile Char.isDigit ['2'] = ([] : List Char) := by decide
  have h4 : natOfDigits ['2'] = 2 := by decide
  simp [parseFloat, h1, h2, h3, h4]

theorem pyFloat_str_two : pyFloat (PyVal.str "2") = Except.ok 2 := by
  simp [pyFloat, parseFloat_two]

/-- C7 counterexample: the claim asserts that merging a validated batch
into an invariant-satisfying inventory yields entries whose quantity and
unit_price are both numbers.  The batch `{"milk": {quantity: "2",
unit_price: 1}}` passes validation (its values are accepted through
`float(...)`), the empty current inventory satisfies the invariant
vacuously, yet the merged entry stores the *string* "2" as quantity —
not a number. -/
theorem C7_merged_quantity_not_a_number :
    validate_items (ItemsArg.items strBatch) = Option.none ∧
    merge_items [] strBatch =
      Except.ok ([("milk", ⟨PyVal.str "2", PyVal.num 1⟩)], []) ∧
    isNumVal (PyVal.str "2") = false := by
  refine ⟨?_, ?_, rfl⟩
  · have hc : checkEntry "milk"
        (PyItem.dict (some (PyVal.str "2")) (some (PyVal.num 1))) =
        Option.none := by
      refine checkEntry_none_of_valid (by decide) pyFloat_str_two rfl ?_ ?_
      · norm_num
      · norm_num
    simp [validate_items, strBatch, firstCheck, hc]
  · have hr : round2 1 = 1 := by norm_num [round2, round_eq]
    simp [merge_items, mergeLoop, mergeStep, strBatch, lookupKey,
      itemQuantity, itemPrice, pyFloat, hr]

/-- C7 amended: for every current inventory satisfying the invariant
(numeric quantity > 0, numeric unit_price ≥ 0 in every entry) and every
batch that passes validation *and whose field values are numbers*,
`merge_items` succeeds and the updated inventory it returns satisfies
the invariant again. -/
theorem C7_merge_preserves_invariant (cur : Inventory) (b : Batch)
    (hcur : goodInv cur)
    (hval : validate_items (ItemsArg.items b) = Option.none)
    (hnum : ∀ x ∈ b, ∃ q p,
      x.2 = PyItem.dict (some (PyVal.num q)) (some (PyVal.num p))) :
    ∃ u c, merge_items cur b = Except.ok (u, c) ∧ goodInv u := by
  have hentries := validate_ok_entries hval
  have hb : ∀ x ∈ b, ∃ q p,
      x.2 = PyItem.dict (some (PyVal.num q)) (some (PyVal.num p)) ∧
        0 < q ∧ 0 ≤ p := by
    intro x hx
    obtain ⟨q, p, hshape⟩ := hnum x hx
    have hc := hentries x hx
    rw [hshape] at hc
    obtain ⟨hq, hp⟩ := checkEntry_num_facts hc
    exact ⟨q, p, hshape, hq, hp⟩
  obtain ⟨⟨u, c⟩, hloop, hgood⟩ := mergeLoop_good b (cur, cur) hcur hb
  exact ⟨u, c, hloop, hgood⟩

/-- Witness for C7_merge_preserves_invariant on the milk example. -/
theorem C7_merge_preserves_invariant_witness :
    goodInv milkCur ∧
    ∃ u c, merge_items milkCur milkBatch = Except.ok (u, c) ∧ goodInv u := by
  refine ⟨by decide, ?_⟩
  refine C7_merge_preserves_invariant milkCur milkBatch (by decide)
    (by decide) ?_
  intro x hx
  simp only [milkBatch, List.mem_singleton] at hx
  subst hx
  exact ⟨2, 5, rfl⟩

/-! ### Helper lemmas about the store gateway and the orchestrator -/

theorem fetch_some_isSome {ok : Bool} {db : DbState} {uid : String}
    {cur : Inventory} (h : get_fridge_by_id ok db uid = some cur) :
    (lookupKey db uid).isSome = true := by
  cases ok with
  | false => simp [get_fridge_by_id] at h
  | true =>
    cases hl : lookupKey db uid with
    | none => simp [get_fridge_by_id, hl] at h
    | some v => simp

theorem mergeAndStore_outcome (fl : StoreFlags) (db : DbState) (uid : String)
    (cur : Inventory) (batch : Batch) :
    (fl.writeOk = false → (mergeAndStore fl db uid cur batch).1.1 = false) ∧
    ((mergeAndStore fl db uid cur batch).1.1 = true →
      fl.writeOk = true ∧ ∃ u c, merge_items cur batch = Except.ok (u, c) ∧
        ((lookupKey db uid).isSome = true →
          lookupKey (mergeAndStore fl db uid cur batch).2 uid =
            some (some u))) := by
  cases hm : merge_items cur batch with
  | error e =>
    constructor
    · intro _; simp [mergeAndStore, hm]
    · intro h; simp [mergeAndStore, hm] at h
  | ok res =>
    obtain ⟨u, c⟩ := res
    cases hw : fl.writeOk with
    | false =>
      constructor
      · intro _; simp [mergeAndStore, hm, update_fridge_contents, hw]
      · intro h
        simp [mergeAndStore, hm, update_fridge_contents, hw] at h
    | true =>
      constructor
      · intro h; simp at h
      · intro _
        refine ⟨rfl, u, c, rfl, ?_⟩
        intro hs
        obtain ⟨v0, hv0⟩ := Option.isSome_iff_exists.mp hs
        simp [mergeAndStore, hm, update_fridge_contents, hw]
        exact lookupKey_replaceKey_self hv0 (some u)

/-- C8: the claim says concurrent `update_fridge` calls on the same uid
are serialized (row lock, per-uid mutex, or CAS), so no batch is lost.
The source's fetch and write are two separate unguarded transactions —
there is no lock, mutex or version check anywhere on the path — so the
interleaving fetch-A, fetch-B, write-A, write-B (both calls fetch the
same snapshot before either writes) is possible.  Evaluating that
interleaving of the embedded gateway operations from a store
holding an empty inventory for uid "1": both calls see `{}`, A writes
`{alpha}`, B then overwrites with `{beta}` — the final inventory lacks
"alpha" entirely, instead of the claimed union. -/
theorem C8_unsynchronized_updates_lose_batch :
    get_fridge_by_id true emptyDb1 "1" = some [] ∧
    merge_items [] batchA = Except.ok (invA, []) ∧
    merge_items [] batchB = Except.ok (invB, []) ∧
    get_fridge_by_id true
      (update_fridge_contents true
        (update_fridge_contents true emptyDb1 "1" invA).2 "1" invB).2 "1" =
      some invB ∧
    lookupKey invB "alpha" = Option.none := by
  have hr2 : round2 2 = 2 := by norm_num [round2, round_eq]
  have hr4 : round2 4 = 4 := by norm_num [round2, round_eq]
  refine ⟨rfl, ?_, ?_, ?_, by decide⟩
  · simp [merge_items, mergeLoop, mergeStep, batchA, invA, lookupKey,
      itemQuantity, itemPrice, pyFloat, hr2]
  · simp [merge_items, mergeLoop, mergeStep, batchB, invB, lookupKey,
      itemQuantity, itemPrice, pyFloat, hr4]
  · simp [update_fridge_contents, emptyDb1, replaceKey, get_fridge_by_id,
      lookupKey]

/-- C9: `update_fridge` always returns a `(success, message)` pair (the
embedding is a total function into `(Bool × String) × DbState`; the
source's blanket `except Exception` handler turns every internal
exception into a `(False, message)` result).  Success is `False`
whenever validation fails, whenever fridge creation fails after a `None`
fetch, and whenever the store write reports failure; and success is
`True` only with a successful write, a validated batch, a merge that
completed, and the merged inventory actually stored under the uid. -/
theorem C9_update_fridge_outcome (fl : StoreFlags) (db : DbState)
    (uid : String) (items : ItemsArg) :
    (∀ e, validate_items items = some e →
      (update_fridge fl db uid items).1.1 = false) ∧
    (get_fridge_by_id fl.fetchOk db uid = Option.none → fl.createOk = false →
      (update_fridge fl db uid items).1.1 = false) ∧
    (fl.writeOk = false → (update_fridge fl db uid items).1.1 = false) ∧
    ((update_fridge fl db uid items).1.1 = true →
      fl.writeOk = true ∧ validate_items items = Option.none ∧
      ∃ u c, merge_items ((get_fridge_by_id fl.fetchOk db uid).getD [])
          (batchOf items) = Except.ok (u, c) ∧
        lookupKey (update_fridge fl db uid items).2 uid = some (some u)) := by
  cases hv : validate_items items with
  | some e =>
    refine ⟨?_, ?_, ?_, ?_⟩
    · intro e1 _; simp [update_fridge, hv]
    · intro _ _; simp [update_fridge, hv]
    · intro _; simp [update_fridge, hv]
    · intro h; simp [update_fridge, hv] at h
  | none =>
    cases hf : get_fridge_by_id fl.fetchOk db uid with
    | some cur =>
      have hout := mergeAndStore_outcome fl db uid cur (batchOf items)
      have heq : update_fridge fl db uid items =
          mergeAndStore fl db uid cur (batchOf items) := by
        simp [update_fridge, hv, hf]
      refine ⟨?_, ?_, ?_, ?_⟩
      · intro e1 he1; simp at he1
      · intro hn; simp at hn
      · intro hw; rw [heq]; exact hout.1 hw
      · intro hs
        rw [heq] at hs
        obtain ⟨hw, u, c, hm, hstore⟩ := hout.2 hs
        refine ⟨hw, rfl, u, c, ?_, ?_⟩
        · simpa [hf] using hm
        · rw [heq]; exact hstore (fetch_some_isSome hf)
    | none =>
      cases hc : fl.createOk with
      | false =>
        refine ⟨?_, ?_, ?_, ?_⟩
        · intro e1 he1; simp at he1
        · intro _ _; simp [update_fridge, hv, hf, create_empty_fridge, hc]
        · intro _; simp [update_fridge, hv, hf, create_empty_fridge, hc]
        · intro h
          simp [update_fridge, hv, hf, create_empty_fridge, hc] at h
      | true =>
        have hdb1 : ∃ db1, create_empty_fridge fl.createOk db uid =
            (true, db1) ∧ (lookupKey db1 uid).isSome = true := by
          rw [hc]
          cases hl : lookupKey db uid with
          | some v =>
            exact ⟨db, by simp [create_empty_fridge, hl], by simp [hl]⟩
          | none =>
            refine ⟨db ++ [(uid, some ([] : Inventory))],
              by simp [create_empty_fridge, hl], ?_⟩
            rw [lookupKey_append_right hl (some ([] : Inventory))]
            rfl
        obtain ⟨db1, hcr, hs1⟩ := hdb1
        have heq : update_fridge fl db uid items =
            mergeAndStore fl db1 uid [] (batchOf items) := by
          simp [update_fridge, hv, hf, hcr]
        have hout := mergeAndStore_outcome fl db1 uid [] (batchOf items)
        refine ⟨?_, ?_, ?_, ?_⟩
        · intro e1 he1; simp at he1
        · intro _ hcf; simp at hcf
        · intro hw; rw [heq]; exact hout.1 hw
        · intro hs
          rw [heq] at hs
          obtain ⟨hw, u, c, hm, hstore⟩ := hout.2 hs
          refine ⟨hw, rfl, u, c, ?_, ?_⟩
          · simpa [hf] using hm
          · rw [heq]; exact hstore hs1

/-- Witness for C9_update_fridge_outcome: a failing write forces a
`False` outcome even for a valid batch on a populated store. -/
theorem C9_update_fridge_outcome_witness :
    (update_fridge ⟨true, true, false⟩ dbWithRecord "1"
      (ItemsArg.items milkBatch)).1.1 = false :=
  (C9_update_fridge_outcome ⟨true, true, false⟩ dbWithRecord "1"
    (ItemsArg.items milkBatch)).2.2.1 rfl

/-- C10: `validate_items` accepts any entry whose two field values are
`float(...)`-convertible with positive quantity and non-negative price —
numeric strings included; and for a batch item whose name is absent from
the current inventory, `merge_items` stores the *original unconverted*
quantity value while converting and rounding only the unit price.
Consequently a batch with a string-typed numeric quantity passes
validation and produces an inventory entry whose stored quantity is that
string (see the witness). -/
theorem C10_string_quantity_stored_raw :
    (∀ (n : String) (qv pv : PyVal) (q p : ℚ), pyStripBlank n = false →
      pyFloat qv = Except.ok q → pyFloat pv = Except.ok p → 0 < q → 0 ≤ p →
      checkEntry n (PyItem.dict (some qv) (some pv)) = Option.none) ∧
    (∀ (cur : Inventory) (n : String) (qv pv : PyVal) (p : ℚ),
      lookupKey cur n = Option.none → pyFloat pv = Except.ok p →
      merge_items cur [(n, PyItem.dict (some qv) (some pv))] =
        Except.ok (cur ++ [(n, ⟨qv, PyVal.num (round2 p)⟩)], cur)) := by
  constructor
  · intro n qv pv q p hn hq hp hqpos hpnn
    exact checkEntry_none_of_valid hn hq hp hqpos hpnn
  · intro cur n qv pv p hl hp
    simp [merge_items, mergeLoop, mergeStep, hl, itemQuantity, itemPrice, hp]

/-- Witness for C10_string_quantity_stored_raw: the string-quantity
batch passes the entry check and its merged record stores the string
"2" as quantity with the rounded numeric price. -/
theorem C10_string_quantity_stored_raw_witness :
    checkEntry "milk"
      (PyItem.dict (some (PyVal.str "2")) (some (PyVal.num 1))) =
        Option.none ∧
    merge_items [] strBatch =
      Except.ok ([("milk", ⟨PyVal.str "2", PyVal.num (round2 1)⟩)], []) := by
  constructor
  · exact C10_string_quantity_stored_raw.1 "milk" (PyVal.str "2")
      (PyVal.num 1) 2 1 (by decide) pyFloat_str_two rfl (by norm_num)
      (by norm_num)
  · exact C10_string_quantity_stored_raw.2 [] "milk" (PyVal.str "2")
      (PyVal.num 1) 1 rfl rfl
